import Mathlib

/-!
Verification of the task-tracking and job-supervision subsystem of the
ingestion server (`ingestion_server/tasks.py`).

Modelling conventions for the shallow embedding:

* The cross-process shared cells (`multiprocessing.Value` objects holding
  percent-complete, finish-timestamp and active-worker-count) are modelled by
  their numeric contents: the registry maps store the value a reader of the
  cell observes at query time, and a worker's writes are modelled by the
  `cellsAfterActions` field of the run environment.  Timestamps and progress
  values are `Nat` (the Python floats involved are epoch seconds and
  percentages; no claim depends on fractional values).
* Python dictionaries are modelled as association lists with the dictionary
  update semantics (`d[k] = v` overwrites in place when the key is present,
  otherwise appends; iteration is in insertion order).  A missing key lookup
  (Python `KeyError`) is modelled by `Option`.
* A worker process's observable behaviour (`Task.run`) is modelled as a pure
  function from the task and an environment describing the collaborators'
  behaviour (whether the `try` body raises, what the shared cells hold at the
  end, whether the callback POST raises) to a trace of collaborator
  invocations, a termination result and the final cell contents.
  `logging.info` calls are elided from the trace; `logging.error` and all
  collaborator / notification / callback invocations are kept.
* `Process.is_alive` follows the Python semantics: it is `true` exactly while
  the worker process is running — in particular it is `false` both before
  `start()` and after the process exits.
-/

namespace IngestionServer

/-- The four task types of the `TaskTypes` enum in `tasks.py`. -/
inductive TaskTypes where
  | REINDEX
  | UPDATE_INDEX
  | INGEST_UPSTREAM
  | LOAD_TEST_DATA
deriving Repr, DecidableEq

/-- A value submitted as a task type.  Python does not enforce that the
`task_type` attribute is a member of the `TaskTypes` enum, so the embedding
distinguishes the four enum members (`known`) from any other value a caller
could pass (`unknown`, carrying its display string). -/
inductive SubmittedType where
  | known (t : TaskTypes)
  | unknown (displayed : String)
deriving Repr, DecidableEq

/-- Python `str()` of the task-type value: `str` of a `TaskTypes` member is
`"TaskTypes.<NAME>"`; an unknown value displays as itself. -/
def SubmittedType.toStr : SubmittedType → String
  | .known .REINDEX => "TaskTypes.REINDEX"
  | .known .UPDATE_INDEX => "TaskTypes.UPDATE_INDEX"
  | .known .INGEST_UPSTREAM => "TaskTypes.INGEST_UPSTREAM"
  | .known .LOAD_TEST_DATA => "TaskTypes.LOAD_TEST_DATA"
  | .unknown s => s

/-- Lifecycle state of a `multiprocessing.Process`: not yet started, running,
or exited (normally or by crash). -/
inductive ProcState where
  | notStarted
  | running
  | exited
deriving Repr, DecidableEq

/-- The `Task` class of `tasks.py` (a `multiprocessing.Process` subclass).
The constructor fields `progress`, `finish_time` and `active_workers` are
shared cells; per the conventions above their contents live in the registry
maps and in `RunEnv.cellsAfterActions`, so they are not repeated here.
`procState` is the state of the underlying OS process. -/
structure Task where
  model : String
  task_type : SubmittedType
  since_date : Nat
  task_id : String
  callback_url : Option String
  procState : ProcState
deriving Repr, DecidableEq

/-- `Process.is_alive()`: true exactly while the worker process runs. -/
def Task.is_alive (t : Task) : Bool :=
  t.procState = ProcState.running

/-- One observable invocation made by a worker during `Task.run`:
collaborator calls, notification-sink calls, the callback POST, and
`logging.error` lines. -/
inductive Call where
  | connectES
  | slackVerbose (message : String)
  | slackError (message : String)
  | reloadUpstream (dataset : String) (approach : String)
  | reindex (dataset : String)
  | update (dataset : String) (since_date : Nat)
  | loadTestData (dataset : String)
  | callbackPost (url : String)
  | logError (message : String)
deriving Repr, DecidableEq

/-- The data of a Python exception needed by the error report: the class's
module, the class name, and the message (`str(err)`). -/
structure ExcInfo where
  excModule : String
  className : String
  message : String
deriving Repr, DecidableEq

/-- How the worker process terminates: falling off `run` normally, or with an
exception escaping `run` (after the re-raise). -/
inductive RunResult where
  | normalExit
  | raised (err : ExcInfo)
deriving Repr, DecidableEq

/-- Contents of the three shared cells of one job. -/
structure Cells where
  progress : Nat
  finish_time : Nat
  active_workers : Nat
deriving Repr, DecidableEq

/-- Environment describing the behaviour of the collaborators during one
execution of `Task.run`: `actionResult = some (n, err)` means the `try` body
raises `err` after `n` observable invocations have happened;
`cellsAfterActions` is what the shared cells hold when the `try` body ends
(the collaborators, not `run` itself, write them); `callbackFails` means the
callback POST raises a `requests.exceptions.RequestException`. -/
structure RunEnv where
  actionResult : Option (Nat × ExcInfo)
  cellsAfterActions : Cells
  callbackFails : Bool
deriving Repr, DecidableEq

/-- Result of one execution of `Task.run`: the trace of observable
invocations, the termination result, and the shared cells' final contents. -/
structure RunOutcome where
  trace : List Call
  result : RunResult
  cells : Cells
deriving Repr, DecidableEq

/-- The action sequence `Task.run` dispatches a task type to (the
`if`/`elif` chain over `TaskTypes`): the collaborator and notification calls
of the matching branch, in order.  A value outside the enum matches no branch
and the chain silently does nothing.  `reload_upstream` called with no
`approach` argument uses its default approach, written `"default"` (per the
interface contract; `reload_upstream` itself lives in `ingest.py`). -/
def dispatchActions (model : String) (task_type : SubmittedType) (since_date : Nat) :
    List Call :=
  match task_type with
  | .known .REINDEX =>
      [.slackVerbose ("`" ++ model ++ "`: Beginning Elasticsearch reindex"),
       .reindex model]
  | .known .UPDATE_INDEX => [.update model since_date]
  | .known .INGEST_UPSTREAM =>
      [.reloadUpstream model "default"]
        ++ (if model = "audio" then [.reloadUpstream "audioset" "basic"] else [])
        ++ [.reindex model]
  | .known .LOAD_TEST_DATA => [.loadTestData model]
  | .unknown _ => []

/-- The module-qualified exception class name
`f"{err.__class__.__module__}.{err.__class__.__name__}"`. -/
def exception_type (err : ExcInfo) : String :=
  err.excModule ++ "." ++ err.className

/-- The error report `Task.run` sends to `slack.error` when the `try` body
raises. -/
def taskErrorMessage (task_type : SubmittedType) (model : String) (err : ExcInfo) :
    String :=
  ":x_red: Error processing task `" ++ task_type.toStr ++ "` for `" ++ model
    ++ "` (`" ++ exception_type err ++ "`): \n```\n" ++ err.message ++ "\n```"

/-- `Task.run` of `tasks.py`.  The `try` body connects to Elasticsearch,
builds the `TableIndexer`, runs the dispatched action sequence, and — when it
completes without raising and a truthy callback URL was supplied — POSTs to
the callback URL, swallowing (and logging) a failed POST.  If the `try` body
raises, the error report is sent to `slack.error` and the exception
re-raised. -/
def Task.run (t : Task) (env : RunEnv) : RunOutcome :=
  let actions := Call.connectES :: dispatchActions t.model t.task_type t.since_date
  match env.actionResult with
  | some (n, err) =>
      { trace := actions.take n ++ [.slackError (taskErrorMessage t.task_type t.model err)],
        result := .raised err,
        cells := env.cellsAfterActions }
  | none =>
      let callbackCalls :=
        match t.callback_url with
        | some url =>
            if url = "" then []
            else if env.callbackFails then
              [Call.callbackPost url, Call.logError "Failed to send callback!"]
            else [Call.callbackPost url]
        | none => []
      { trace := actions ++ callbackCalls,
        result := .normalExit,
        cells := env.cellsAfterActions }

/-- Python dictionary lookup `d[k]` as an association-list lookup: `none`
models a `KeyError`. -/
def dictGet {α : Type} (d : List (String × α)) (k : String) : Option α :=
  match d with
  | [] => none
  | (k1, v) :: rest => if k1 = k then some v else dictGet rest k

/-- Python dictionary update `d[k] = v`: overwrite in place when `k` is
present (keeping its position), otherwise append (insertion order). -/
def dictSet {α : Type} (d : List (String × α)) (k : String) (v : α) :
    List (String × α) :=
  match d with
  | [] => [(k, v)]
  | (k1, v1) :: rest => if k1 = k then (k, v) :: rest else (k1, v1) :: dictSet rest k v

/-- The `TaskTracker` registry: six per-id dictionaries, as in
`TaskTracker.__init__`. -/
structure TaskTracker where
  id_task : List (String × Task)
  id_action : List (String × String)
  id_progress : List (String × Nat)
  id_start_time : List (String × Nat)
  id_finish_time : List (String × Nat)
  id_active_workers : List (String × Nat)
deriving Repr, DecidableEq

/-- `TaskTracker.__init__`: all six dictionaries empty. -/
def TaskTracker.init : TaskTracker :=
  ⟨[], [], [], [], [], []⟩

/-- `TaskTracker._prune_old_tasks`: its body is `pass`. -/
def TaskTracker._prune_old_tasks (tr : TaskTracker) : TaskTracker :=
  tr

/-- `TaskTracker.add_task`: prune, then store the job under `task_id` in all
six dictionaries — the start time is the current wall clock
(`dt.datetime.utcnow().timestamp()`, passed here as `now`) — and return the
identifier. -/
def TaskTracker.add_task (tr : TaskTracker) (task : Task) (task_id : String)
    (action : String) (progress : Nat) (finish_time : Nat) (active_workers : Nat)
    (now : Nat) : TaskTracker × String :=
  let tr1 := tr._prune_old_tasks
  ({ id_task := dictSet tr1.id_task task_id task,
     id_action := dictSet tr1.id_action task_id action,
     id_progress := dictSet tr1.id_progress task_id progress,
     id_start_time := dictSet tr1.id_start_time task_id now,
     id_finish_time := dictSet tr1.id_finish_time task_id finish_time,
     id_active_workers := dictSet tr1.id_active_workers task_id active_workers },
   task_id)

/-- One status record of `list_task_statuses` before date rendering: the raw
(epoch-seconds) timestamps as read from the registry. -/
structure RawStatus where
  task_id : String
  active : Bool
  action : String
  progress : Nat
  error : Bool
  start_time : Nat
  finish_time : Nat
  active_workers : Bool
deriving Repr, DecidableEq

/-- The record `list_task_statuses` builds for one registry entry:
`error` is `percent_completed < 100 and not active`, `active` is
`task.is_alive()`, `active_workers` is `bool(active_workers)`. -/
def statusOf (task_id : String) (task : Task) (action : String) (progress : Nat)
    (start_time : Nat) (finish_time : Nat) (active_workers : Nat) : RawStatus :=
  { task_id := task_id,
    active := task.is_alive,
    action := action,
    progress := progress,
    error := decide (progress < 100) && !task.is_alive,
    start_time := start_time,
    finish_time := finish_time,
    active_workers := active_workers != 0 }

/-- The lookups `list_task_statuses` performs for one entry of `id_task`
(`none` models a `KeyError` on a registry whose dictionaries are out of
sync). -/
def TaskTracker.entryStatus (tr : TaskTracker) (task_id : String) (task : Task) :
    Option RawStatus :=
  match dictGet tr.id_progress task_id, dictGet tr.id_start_time task_id,
      dictGet tr.id_finish_time task_id, dictGet tr.id_active_workers task_id,
      dictGet tr.id_action task_id with
  | some prog, some st, some fin, some aw, some act =>
      some (statusOf task_id task act prog st fin aw)
  | _, _, _, _, _ => none

/-- The `results` list of `list_task_statuses`: one record per entry of
`id_task`, in iteration (= insertion) order. -/
def TaskTracker.collectStatuses (tr : TaskTracker) :
    List (String × Task) → Option (List RawStatus)
  | [] => some []
  | (task_id, task) :: rest =>
      match tr.entryStatus task_id task, tr.collectStatuses rest with
      | some r, some rs => some (r :: rs)
      | _, _ => none

/-- The sort key of `list_task_statuses`: ascending raw finish timestamp. -/
def finishLE (a b : RawStatus) : Prop :=
  a.finish_time ≤ b.finish_time

instance : DecidableRel finishLE :=
  fun a b => inferInstanceAs (Decidable (a.finish_time ≤ b.finish_time))

instance : IsTotal RawStatus finishLE :=
  ⟨fun a b => Nat.le_total a.finish_time b.finish_time⟩

instance : IsTrans RawStatus finishLE :=
  ⟨fun _ _ _ h1 h2 => Nat.le_trans h1 h2⟩

/-- `sorted_results` of `list_task_statuses` before date rendering: prune,
collect one record per registry entry, and stable-sort ascending by the raw
finish timestamp (Python `sorted` with key `x["finish_time"]`; modelled by
the stable `List.insertionSort`, extensionally equal on this key). -/
def TaskTracker.list_task_statuses_raw (tr : TaskTracker) : Option (List RawStatus) :=
  let tr1 := tr._prune_old_tasks
  (tr1.collectStatuses tr1.id_task).map (List.insertionSort finishLE)

/-- A rendered timestamp: `unset` models Python `None` (the sentinel 0), and
`utcInstant d s` models the `datetime` value `utcfromtimestamp` returns for
epoch seconds `86400 * d + s` — the UTC instant `d` whole days plus `s`
seconds after the epoch (so `utcInstant 0 0` is the epoch-zero 1970-01-01
instant). -/
inductive RenderedDate where
  | unset
  | utcInstant (days : Nat) (secondOfDay : Nat)
deriving Repr, DecidableEq

/-- `render_date` of `list_task_statuses`:
`to_utc(x) if x != 0.0 else None`. -/
def render_date (x : Nat) : RenderedDate :=
  if x ≠ 0 then .utcInstant (x / 86400) (x % 86400) else .unset

/-- One fully rendered status record, as returned to the caller. -/
structure StatusRecord where
  task_id : String
  active : Bool
  action : String
  progress : Nat
  error : Bool
  start_time : RenderedDate
  finish_time : RenderedDate
  active_workers : Bool
deriving Repr, DecidableEq

/-- The in-place date-rendering loop of `list_task_statuses`, applied to one
record: replace the two raw timestamps with their rendered forms. -/
def renderRecord (r : RawStatus) : StatusRecord :=
  { task_id := r.task_id,
    active := r.active,
    action := r.action,
    progress := r.progress,
    error := r.error,
    start_time := render_date r.start_time,
    finish_time := render_date r.finish_time,
    active_workers := r.active_workers }

/-- `TaskTracker.list_task_statuses`: the sorted records with both
timestamps rendered. -/
def TaskTracker.list_task_statuses (tr : TaskTracker) : Option (List StatusRecord) :=
  tr.list_task_statuses_raw.map (List.map renderRecord)

/-! ## Helper lemmas -/

theorem dictGet_dictSet_self {α : Type} (d : List (String × α)) (k : String) (v : α) :
    dictGet (dictSet d k v) k = some v := by
  induction d with
  | nil => simp [dictSet, dictGet]
  | cons p rest ih =>
    obtain ⟨k1, v1⟩ := p
    by_cases h1 : k1 = k
    · simp [dictSet, dictGet, h1]
    · simp [dictSet, dictGet, h1, ih]

theorem dictGet_dictSet_ne {α : Type} (d : List (String × α)) (k1 k : String) (v : α)
    (h : k ≠ k1) :
    dictGet (dictSet d k1 v) k = dictGet d k := by
  have hk1 : ¬(k1 = k) := fun h2 => h h2.symm
  induction d with
  | nil => simp [dictSet, dictGet, hk1]
  | cons p rest ih =>
    obtain ⟨k2, v2⟩ := p
    by_cases h2 : k2 = k1
    · subst h2
      simp [dictSet, dictGet, hk1]
    · simp [dictSet, dictGet, h2, ih]

theorem entryStatus_shape (tr : TaskTracker) (task_id : String) (task : Task)
    (r : RawStatus) (h : tr.entryStatus task_id task = some r) :
    ∃ a p s f w, r = statusOf task_id task a p s f w := by
  unfold TaskTracker.entryStatus at h
  split at h
  · exact ⟨_, _, _, _, _, (Option.some.inj h).symm⟩
  · exact absurd h (by simp)

theorem collectStatuses_mem_shape (tr : TaskTracker) :
    ∀ (l : List (String × Task)) (rs : List RawStatus) (r : RawStatus),
    tr.collectStatuses l = some rs → r ∈ rs →
    ∃ i t a p s f w, r = statusOf i t a p s f w := by
  intro l
  induction l with
  | nil =>
    intro rs r h hr
    simp [TaskTracker.collectStatuses] at h
    subst h
    cases hr
  | cons p rest ih =>
    intro rs r h hr
    obtain ⟨id1, task1⟩ := p
    unfold TaskTracker.collectStatuses at h
    cases hes : tr.entryStatus id1 task1 with
    | none => rw [hes] at h; simp at h
    | some r0 =>
      cases hcs : tr.collectStatuses rest with
      | none => rw [hes, hcs] at h; simp at h
      | some rs1 =>
        rw [hes, hcs] at h
        simp at h
        subst h
        cases hr with
        | head =>
          obtain ⟨a, p1, s, f, w, hshape⟩ := entryStatus_shape tr id1 task1 r hes
          exact ⟨id1, task1, a, p1, s, f, w, hshape⟩
        | tail _ hmem => exact ih rs1 r hcs hmem

theorem collectStatuses_entry_mem (tr : TaskTracker) :
    ∀ (l : List (String × Task)) (rs : List RawStatus) (id : String) (task : Task),
    tr.collectStatuses l = some rs → (id, task) ∈ l →
    ∃ r, r ∈ rs ∧ tr.entryStatus id task = some r := by
  intro l
  induction l with
  | nil => intro rs id task h hm; cases hm
  | cons p rest ih =>
    intro rs id task h hm
    obtain ⟨id1, task1⟩ := p
    unfold TaskTracker.collectStatuses at h
    cases hes : tr.entryStatus id1 task1 with
    | none => rw [hes] at h; simp at h
    | some r0 =>
      cases hcs : tr.collectStatuses rest with
      | none => rw [hes, hcs] at h; simp at h
      | some rs1 =>
        rw [hes, hcs] at h
        simp at h
        subst h
        cases hm with
        | head => exact ⟨r0, List.mem_cons_self _ _, hes⟩
        | tail _ hmem =>
          obtain ⟨r, hr, he⟩ := ih rs1 id task hcs hmem
          exact ⟨r, List.mem_cons_of_mem _ hr, he⟩

theorem list_raw_destruct (tr : TaskTracker) (recs : List RawStatus)
    (h : tr.list_task_statuses_raw = some recs) :
    ∃ rs, tr.collectStatuses tr.id_task = some rs
      ∧ recs = List.insertionSort finishLE rs := by
  unfold TaskTracker.list_task_statuses_raw TaskTracker._prune_old_tasks at h
  rw [Option.map_eq_some'] at h
  obtain ⟨rs, hrs, hmap⟩ := h
  exact ⟨rs, hrs, hmap.symm⟩

theorem statusOf_error_iff (i : String) (t : Task) (a : String) (p s f w : Nat) :
    ((statusOf i t a p s f w).error = true ↔
      ((statusOf i t a p s f w).progress < 100 ∧ (statusOf i t a p s f w).active = false)) := by
  simp [statusOf]

/-! ## Concrete fixtures used by the witnesses -/

/-- A worker that exited after reporting 40 percent (a crashed job). -/
def crashedTask : Task := ⟨"image", .known .REINDEX, 0, "t1", none, .exited⟩

/-- A worker still running at 55 percent. -/
def runningTask : Task := ⟨"audio", .known .INGEST_UPSTREAM, 0, "t2", none, .running⟩

/-- A worker that ran to completion. -/
def finishedTask : Task := ⟨"image", .known .REINDEX, 0, "t3", none, .exited⟩

/-- A submitted worker that was never started. -/
def unstartedTask : Task := ⟨"image", .known .REINDEX, 0, "t4", none, .notStarted⟩

/-- A registry holding a crashed, a running, a finished and an unstarted job. -/
def sampleTracker : TaskTracker :=
  ((((TaskTracker.init.add_task crashedTask "t1" "REINDEX" 40 0 0 100).1.add_task
      runningTask "t2" "INGEST_UPSTREAM" 55 0 2 200).1.add_task
      finishedTask "t3" "REINDEX" 100 1690000000 0 300).1.add_task
      unstartedTask "t4" "REINDEX" 0 0 0 400).1

/-- The raw status list `sampleTracker` produces. -/
def sampleStatuses : List RawStatus :=
  [⟨"t1", false, "REINDEX", 40, true, 100, 0, false⟩,
   ⟨"t2", true, "INGEST_UPSTREAM", 55, false, 200, 0, true⟩,
   ⟨"t4", false, "REINDEX", 0, true, 400, 0, false⟩,
   ⟨"t3", false, "REINDEX", 100, false, 300, 1690000000, false⟩]

/-! ## Claim theorems -/

/-- C1: in every record `list_task_statuses` produces, the `error` field is
true iff the reported progress is strictly below 100 and the worker process
is not alive; in particular a worker that exited before reporting 100 percent
yields `active = false` and `error = true`. -/
theorem statuses_error_iff_incomplete_not_alive (tr : TaskTracker)
    (recs : List RawStatus) (h : tr.list_task_statuses_raw = some recs) :
    (∀ r ∈ recs, (r.error = true ↔ (r.progress < 100 ∧ r.active = false)))
    ∧ (∀ (i : String) (t : Task) (a : String) (p s f w : Nat),
        t.procState = ProcState.exited → p < 100 →
        (statusOf i t a p s f w).active = false
          ∧ (statusOf i t a p s f w).error = true) := by
  constructor
  · intro r hr
    obtain ⟨rs, hcs, hrecs⟩ := list_raw_destruct tr recs h
    subst hrecs
    have hr1 : r ∈ rs := ((List.perm_insertionSort finishLE rs).mem_iff).1 hr
    obtain ⟨i, t, a, p, s, f, w, rfl⟩ :=
      collectStatuses_mem_shape tr tr.id_task rs r hcs hr1
    exact statusOf_error_iff i t a p s f w
  · intro i t a p s f w hps hp
    simp [statusOf, Task.is_alive, hps, hp]

/-- C1 witness: `sampleTracker` at a concrete input. -/
theorem statuses_error_iff_incomplete_not_alive_witness :
    (sampleTracker.list_task_statuses_raw = some sampleStatuses)
    ∧ ((∀ r ∈ sampleStatuses, (r.error = true ↔ (r.progress < 100 ∧ r.active = false)))
      ∧ (∀ (i : String) (t : Task) (a : String) (p s f w : Nat),
          t.procState = ProcState.exited → p < 100 →
          (statusOf i t a p s f w).active = false
            ∧ (statusOf i t a p s f w).error = true)) :=
  ⟨by rfl, statuses_error_iff_incomplete_not_alive sampleTracker sampleStatuses (by rfl)⟩

/-- C2: running an `INGEST_UPSTREAM` task for the primary dataset `"audio"`
invokes `reload_upstream` on `"audio"` in default mode, then `reload_upstream`
on `"audioset"` with approach `"basic"`, then exactly one `indexer.reindex`
on `"audio"`; for any other dataset it invokes exactly one `reload_upstream`
followed by exactly one `indexer.reindex`, in that order.  (`connectES` is the
indexing-backend connection every worker establishes first.) -/
theorem ingest_upstream_invocation_order (d : Nat) (id : String) (c : Cells) :
    (Task.run ⟨"audio", .known .INGEST_UPSTREAM, d, id, none, .running⟩
        { actionResult := none, cellsAfterActions := c, callbackFails := false }).trace
      = [.connectES, .reloadUpstream "audio" "default",
         .reloadUpstream "audioset" "basic", .reindex "audio"]
    ∧ ∀ m : String, m ≠ "audio" →
        (Task.run ⟨m, .known .INGEST_UPSTREAM, d, id, none, .running⟩
            { actionResult := none, cellsAfterActions := c, callbackFails := false }).trace
          = [.connectES, .reloadUpstream m "default", .reindex m] := by
  constructor
  · rfl
  · intro m hm
    simp [Task.run, dispatchActions, hm]

/-- C2 witness: the dispatch at the primary dataset and at `"image"`. -/
theorem ingest_upstream_invocation_order_witness :
    ((Task.run ⟨"audio", .known .INGEST_UPSTREAM, 0, "t", none, .running⟩
        { actionResult := none, cellsAfterActions := ⟨0, 0, 0⟩, callbackFails := false }).trace
      = [.connectES, .reloadUpstream "audio" "default",
         .reloadUpstream "audioset" "basic", .reindex "audio"])
    ∧ ((Task.run ⟨"image", .known .INGEST_UPSTREAM, 0, "t", none, .running⟩
        { actionResult := none, cellsAfterActions := ⟨0, 0, 0⟩, callbackFails := false }).trace
      = [.connectES, .reloadUpstream "image" "default", .reindex "image"]) :=
  ⟨(ingest_upstream_invocation_order 0 "t" ⟨0, 0, 0⟩).1,
   (ingest_upstream_invocation_order 0 "t" ⟨0, 0, 0⟩).2 "image" (by decide)⟩

/-- C3: the raw status list is pairwise ascending in the raw finish
timestamp, and once a non-zero finish timestamp appears every later record's
finish timestamp is non-zero too — equivalently, every record with the unset
sentinel 0 precedes every record with a non-zero finish timestamp. -/
theorem statuses_sorted_by_finish_time (tr : TaskTracker) (recs : List RawStatus)
    (h : tr.list_task_statuses_raw = some recs) :
    recs.Pairwise finishLE
    ∧ recs.Pairwise (fun a b => a.finish_time ≠ 0 → b.finish_time ≠ 0) := by
  obtain ⟨rs, hcs, hrecs⟩ := list_raw_destruct tr recs h
  subst hrecs
  constructor
  · exact List.sorted_insertionSort finishLE rs
  · exact (List.sorted_insertionSort finishLE rs).imp
      (fun hab ha => by unfold finishLE at hab; omega)

/-- C3 witness: `sampleTracker` mixes three unset and one set finish
timestamp. -/
theorem statuses_sorted_by_finish_time_witness :
    (sampleTracker.list_task_statuses_raw = some sampleStatuses)
    ∧ (sampleStatuses.Pairwise finishLE
      ∧ sampleStatuses.Pairwise (fun a b => a.finish_time ≠ 0 → b.finish_time ≠ 0)) :=
  ⟨by rfl, statuses_sorted_by_finish_time sampleTracker sampleStatuses (by rfl)⟩

/-- String containment used to state what the error report carries: `sub`
occurs contiguously inside `s`. -/
def strContains (s sub : String) : Prop :=
  ∃ l r, s = l ++ (sub ++ r)

/-- C4 counterexample: a task whose type is outside the `TaskTypes`
enumeration does not fail at dispatch — its worker runs, the `if`/`elif`
chain matches no branch and performs no action, no error is raised or
reported, and `run` exits normally.  Dispatch happens inside the already
spawned worker process (`Task.run`), not before it is spawned. -/
theorem unknown_task_type_runs_silently_counterexample :
    Task.run ⟨"image", .unknown "5", 0, "t1", none, .running⟩
        { actionResult := none, cellsAfterActions := ⟨0, 0, 0⟩, callbackFails := false }
      = { trace := [.connectES], result := .normalExit, cells := ⟨0, 0, 0⟩ } := by
  rfl

/-- C4 amended: the type-to-action mapping covers every value of the
four-member enumeration (each enum value dispatches to a non-empty action
sequence), but a task type outside the enumeration does not fail fast:
the worker process still runs, the dispatch silently performs no action,
and the run exits normally. -/
theorem dispatch_total_on_enum_unknown_ignored (m u : String) (d : Nat)
    (id : String) (c : Cells) (b : Bool) :
    (∀ t : TaskTypes, 1 ≤ (dispatchActions m (.known t) d).length)
    ∧ dispatchActions m (.unknown u) d = []
    ∧ (Task.run ⟨m, .unknown u, d, id, none, .running⟩
        { actionResult := none, cellsAfterActions := c, callbackFails := b }).result
        = .normalExit
    ∧ (Task.run ⟨m, .unknown u, d, id, none, .running⟩
        { actionResult := none, cellsAfterActions := c, callbackFails := b }).trace
        = [.connectES] := by
  refine ⟨?_, rfl, rfl, rfl⟩
  intro t
  cases t <;> simp [dispatchActions]

/-- C5: when the action sequence completes without raising and the task has
a (truthy) callback URL, a failing callback POST is logged and swallowed: the
run still exits normally, with the same trace plus the `logging.error` line,
the shared cells are untouched by the failure, and the status record — hence
its `error` field — computed from those cells is unchanged. -/
theorem callback_failure_swallowed (m : String) (tt : SubmittedType) (d : Nat)
    (id url : String) (ps : ProcState) (c : Cells) (hurl : url ≠ "") :
    (Task.run ⟨m, tt, d, id, some url, ps⟩
        { actionResult := none, cellsAfterActions := c, callbackFails := true }).result
      = .normalExit
    ∧ (Task.run ⟨m, tt, d, id, some url, ps⟩
        { actionResult := none, cellsAfterActions := c, callbackFails := true }).cells
      = (Task.run ⟨m, tt, d, id, some url, ps⟩
          { actionResult := none, cellsAfterActions := c, callbackFails := false }).cells
    ∧ (Task.run ⟨m, tt, d, id, some url, ps⟩
        { actionResult := none, cellsAfterActions := c, callbackFails := true }).trace
      = (Task.run ⟨m, tt, d, id, some url, ps⟩
          { actionResult := none, cellsAfterActions := c, callbackFails := false }).trace
        ++ [.logError "Failed to send callback!"]
    ∧ ∀ (task : Task) (act : String) (st : Nat),
        statusOf id task act
            ((Task.run ⟨m, tt, d, id, some url, ps⟩
              { actionResult := none, cellsAfterActions := c, callbackFails := true }).cells).progress
            st
            ((Task.run ⟨m, tt, d, id, some url, ps⟩
              { actionResult := none, cellsAfterActions := c, callbackFails := true }).cells).finish_time
            ((Task.run ⟨m, tt, d, id, some url, ps⟩
              { actionResult := none, cellsAfterActions := c, callbackFails := true }).cells).active_workers
          = statusOf id task act
            ((Task.run ⟨m, tt, d, id, some url, ps⟩
              { actionResult := none, cellsAfterActions := c, callbackFails := false }).cells).progress
            st
            ((Task.run ⟨m, tt, d, id, some url, ps⟩
              { actionResult := none, cellsAfterActions := c, callbackFails := false }).cells).finish_time
            ((Task.run ⟨m, tt, d, id, some url, ps⟩
              { actionResult := none, cellsAfterActions := c, callbackFails := false }).cells).active_workers := by
  refine ⟨rfl, rfl, ?_, fun task act st => rfl⟩
  simp [Task.run, hurl]

/-- C5 witness: a reindex task with callback `"http://cb"` at a concrete
input. -/
theorem callback_failure_swallowed_witness :
    ("http://cb" : String) ≠ ""
    ∧ ((Task.run ⟨"image", .known .REINDEX, 0, "t1", some "http://cb", .exited⟩
        { actionResult := none, cellsAfterActions := ⟨100, 5, 0⟩, callbackFails := true }).result
      = .normalExit
    ∧ (Task.run ⟨"image", .known .REINDEX, 0, "t1", some "http://cb", .exited⟩
        { actionResult := none, cellsAfterActions := ⟨100, 5, 0⟩, callbackFails := true }).cells
      = (Task.run ⟨"image", .known .REINDEX, 0, "t1", some "http://cb", .exited⟩
          { actionResult := none, cellsAfterActions := ⟨100, 5, 0⟩, callbackFails := false }).cells
    ∧ (Task.run ⟨"image", .known .REINDEX, 0, "t1", some "http://cb", .exited⟩
        { actionResult := none, cellsAfterActions := ⟨100, 5, 0⟩, callbackFails := true }).trace
      = (Task.run ⟨"image", .known .REINDEX, 0, "t1", some "http://cb", .exited⟩
          { actionResult := none, cellsAfterActions := ⟨100, 5, 0⟩, callbackFails := false }).trace
        ++ [.logError "Failed to send callback!"]
    ∧ ∀ (task : Task) (act : String) (st : Nat),
        statusOf "t1" task act
            ((Task.run ⟨"image", .known .REINDEX, 0, "t1", some "http://cb", .exited⟩
              { actionResult := none, cellsAfterActions := ⟨100, 5, 0⟩, callbackFails := true }).cells).progress
            st
            ((Task.run ⟨"image", .known .REINDEX, 0, "t1", some "http://cb", .exited⟩
              { actionResult := none, cellsAfterActions := ⟨100, 5, 0⟩, callbackFails := true }).cells).finish_time
            ((Task.run ⟨"image", .known .REINDEX, 0, "t1", some "http://cb", .exited⟩
              { actionResult := none, cellsAfterActions := ⟨100, 5, 0⟩, callbackFails := true }).cells).active_workers
          = statusOf "t1" task act
            ((Task.run ⟨"image", .known .REINDEX, 0, "t1", some "http://cb", .exited⟩
              { actionResult := none, cellsAfterActions := ⟨100, 5, 0⟩, callbackFails := false }).cells).progress
            st
            ((Task.run ⟨"image", .known .REINDEX, 0, "t1", some "http://cb", .exited⟩
              { actionResult := none, cellsAfterActions := ⟨100, 5, 0⟩, callbackFails := false }).cells).finish_time
            ((Task.run ⟨"image", .known .REINDEX, 0, "t1", some "http://cb", .exited⟩
              { actionResult := none, cellsAfterActions := ⟨100, 5, 0⟩, callbackFails := false }).cells).active_workers) :=
  ⟨by decide,
   callback_failure_swallowed "image" (.known .REINDEX) 0 "t1" "http://cb" .exited
     ⟨100, 5, 0⟩ (by decide)⟩

/-- C6: when the action sequence raises, the worker sends through the
notification sink's error channel a report containing the task type, the
dataset, the module-qualified exception class name and the exception
message, and then re-raises, so `run` terminates with that exception. -/
theorem action_failure_reported_and_reraised (m : String) (tt : SubmittedType)
    (d : Nat) (id : String) (cb : Option String) (ps : ProcState) (c : Cells)
    (b : Bool) (n : Nat) (e : ExcInfo) :
    (Task.run ⟨m, tt, d, id, cb, ps⟩
        { actionResult := some (n, e), cellsAfterActions := c, callbackFails := b }).result
      = .raised e
    ∧ (Task.run ⟨m, tt, d, id, cb, ps⟩
        { actionResult := some (n, e), cellsAfterActions := c, callbackFails := b }).trace
      = (Call.connectES :: dispatchActions m tt d).take n
          ++ [.slackError (taskErrorMessage tt m e)]
    ∧ strContains (taskErrorMessage tt m e) tt.toStr
    ∧ strContains (taskErrorMessage tt m e) m
    ∧ strContains (taskErrorMessage tt m e) (exception_type e)
    ∧ strContains (taskErrorMessage tt m e) e.message := by
  refine ⟨rfl, rfl, ?_, ?_, ?_, ?_⟩
  · refine ⟨":x_red: Error processing task `",
      "` for `" ++ m ++ "` (`" ++ exception_type e ++ "`): \n```\n"
        ++ e.message ++ "\n```", ?_⟩
    simp [taskErrorMessage, String.append_assoc]
  · refine ⟨":x_red: Error processing task `" ++ tt.toStr ++ "` for `",
      "` (`" ++ exception_type e ++ "`): \n```\n" ++ e.message ++ "\n```", ?_⟩
    simp [taskErrorMessage, String.append_assoc]
  · refine ⟨":x_red: Error processing task `" ++ tt.toStr ++ "` for `" ++ m ++ "` (`",
      "`): \n```\n" ++ e.message ++ "\n```", ?_⟩
    simp [taskErrorMessage, String.append_assoc]
  · refine ⟨":x_red: Error processing task `" ++ tt.toStr ++ "` for `" ++ m
        ++ "` (`" ++ exception_type e ++ "`): \n```\n",
      "\n```", ?_⟩
    simp [taskErrorMessage, String.append_assoc]

/-- A single-entry registry holding only the never-started job. -/
def unstartedTracker : TaskTracker :=
  (TaskTracker.init.add_task unstartedTask "t4" "REINDEX" 0 0 0 1700000000).1

/-- C7 counterexample: a submitted job whose worker was never started is
reported with `progress = 0` and `finish_time` unset as the claim states, but
with `error = true`, not `error = false`: `is_alive()` is false before
`start()`, so the registry's `progress < 100 and not active` inference marks
the unstarted job as failed. -/
theorem unstarted_job_error_true_counterexample :
    unstartedTracker.list_task_statuses_raw
      = some [⟨"t4", false, "REINDEX", 0, true, 1700000000, 0, false⟩] := by
  rfl

/-- C7 amended: for every registered job whose worker process has not been
started and whose progress and finish-time cells hold 0, `list_task_statuses`
reports progress 0, finish time unset (0), active false — and `error = true`
(not false: the registry cannot distinguish an unstarted worker from a
crashed one). -/
theorem unstarted_job_status (tr : TaskTracker) (recs : List RawStatus)
    (id : String) (task : Task)
    (h : tr.list_task_statuses_raw = some recs)
    (hmem : (id, task) ∈ tr.id_task)
    (hps : task.procState = ProcState.notStarted)
    (hprog : dictGet tr.id_progress id = some 0)
    (hfin : dictGet tr.id_finish_time id = some 0) :
    ∃ r, r ∈ recs ∧ r.task_id = id ∧ r.progress = 0 ∧ r.finish_time = 0
      ∧ r.active = false ∧ r.error = true := by
  obtain ⟨rs, hcs, hrecs⟩ := list_raw_destruct tr recs h
  subst hrecs
  obtain ⟨r, hr, he⟩ := collectStatuses_entry_mem tr tr.id_task rs id task hcs hmem
  refine ⟨r, ((List.perm_insertionSort finishLE rs).mem_iff).2 hr, ?_⟩
  unfold TaskTracker.entryStatus at he
  rw [hprog, hfin] at he
  cases hst : dictGet tr.id_start_time id with
  | none => rw [hst] at he; simp at he
  | some st =>
    cases haw : dictGet tr.id_active_workers id with
    | none => rw [hst, haw] at he; simp at he
    | some aw =>
      cases hac : dictGet tr.id_action id with
      | none => rw [hst, haw, hac] at he; simp at he
      | some act =>
        rw [hst, haw, hac] at he
        simp at he
        subst he
        simp [statusOf, Task.is_alive, hps]

/-- C7 witness: the amended claim at the concrete unstarted job. -/
theorem unstarted_job_status_witness :
    ∃ r, r ∈ [(⟨"t4", false, "REINDEX", 0, true, 1700000000, 0, false⟩ : RawStatus)]
      ∧ r.task_id = "t4" ∧ r.progress = 0 ∧ r.finish_time = 0
      ∧ r.active = false ∧ r.error = true :=
  unstarted_job_status unstartedTracker
    [⟨"t4", false, "REINDEX", 0, true, 1700000000, 0, false⟩]
    "t4" unstartedTask (by rfl) (by decide) (by rfl) (by rfl) (by rfl)

/-- C8: `list_task_statuses` renders each raw timestamp of the sorted records
through `render_date`: a non-zero epoch-seconds value becomes the
corresponding absolute UTC instant (never the epoch-zero 1970 instant and
never the unset marker), while the sentinel 0 becomes the explicit unset
marker (Python `None`), never an epoch-zero date. -/
theorem rendered_timestamps (tr : TaskTracker) (raws : List RawStatus)
    (h : tr.list_task_statuses_raw = some raws) :
    tr.list_task_statuses = some (raws.map renderRecord)
    ∧ render_date 0 = RenderedDate.unset
    ∧ (∀ x : Nat, x ≠ 0 →
        render_date x = RenderedDate.utcInstant (x / 86400) (x % 86400)
        ∧ render_date x ≠ RenderedDate.utcInstant 0 0
        ∧ render_date x ≠ RenderedDate.unset)
    ∧ (∀ r ∈ raws,
        (renderRecord r).start_time = render_date r.start_time
        ∧ (renderRecord r).finish_time = render_date r.finish_time) := by
  refine ⟨?_, rfl, ?_, fun r _ => ⟨rfl, rfl⟩⟩
  · unfold TaskTracker.list_task_statuses
    rw [h]
    rfl
  · intro x hx
    refine ⟨by simp [render_date, hx], ?_, by simp [render_date, hx]⟩
    simp only [render_date, if_pos hx]
    intro heq
    injection heq with h1 h2
    omega

/-- C8 witness: the rendering at the sample registry. -/
theorem rendered_timestamps_witness :
    (sampleTracker.list_task_statuses_raw = some sampleStatuses)
    ∧ (sampleTracker.list_task_statuses = some (sampleStatuses.map renderRecord)
    ∧ render_date 0 = RenderedDate.unset
    ∧ (∀ x : Nat, x ≠ 0 →
        render_date x = RenderedDate.utcInstant (x / 86400) (x % 86400)
        ∧ render_date x ≠ RenderedDate.utcInstant 0 0
        ∧ render_date x ≠ RenderedDate.unset)
    ∧ (∀ r ∈ sampleStatuses,
        (renderRecord r).start_time = render_date r.start_time
        ∧ (renderRecord r).finish_time = render_date r.finish_time)) :=
  ⟨by rfl, rendered_timestamps sampleTracker sampleStatuses (by rfl)⟩

/-- C9: the pruning hook is a no-op — it returns the registry unchanged for
every state — and `add_task` (which invokes it first) leaves every entry of
all six per-id maps untouched for every identifier other than the one being
added; `list_task_statuses` is, in this embedding, a pure function of the
registry state, so it removes nothing either. -/
theorem prune_noop_and_entries_preserved (tr : TaskTracker) (task : Task)
    (task_id action : String) (progress finish_time active_workers now : Nat)
    (k : String) (hk : k ≠ task_id) :
    (∀ tr2 : TaskTracker, tr2._prune_old_tasks = tr2)
    ∧ dictGet ((tr.add_task task task_id action progress finish_time active_workers now).1).id_task k
        = dictGet tr.id_task k
    ∧ dictGet ((tr.add_task task task_id action progress finish_time active_workers now).1).id_action k
        = dictGet tr.id_action k
    ∧ dictGet ((tr.add_task task task_id action progress finish_time active_workers now).1).id_progress k
        = dictGet tr.id_progress k
    ∧ dictGet ((tr.add_task task task_id action progress finish_time active_workers now).1).id_start_time k
        = dictGet tr.id_start_time k
    ∧ dictGet ((tr.add_task task task_id action progress finish_time active_workers now).1).id_finish_time k
        = dictGet tr.id_finish_time k
    ∧ dictGet ((tr.add_task task task_id action progress finish_time active_workers now).1).id_active_workers k
        = dictGet tr.id_active_workers k := by
  exact ⟨fun tr2 => rfl,
    dictGet_dictSet_ne _ task_id k _ hk, dictGet_dictSet_ne _ task_id k _ hk,
    dictGet_dictSet_ne _ task_id k _ hk, dictGet_dictSet_ne _ task_id k _ hk,
    dictGet_dictSet_ne _ task_id k _ hk, dictGet_dictSet_ne _ task_id k _ hk⟩

/-- C9 witness: adding `"t9"` to the sample registry leaves the entry of
`"t1"` untouched in all six maps. -/
theorem prune_noop_and_entries_preserved_witness :
    ("t1" : String) ≠ "t9"
    ∧ ((∀ tr2 : TaskTracker, tr2._prune_old_tasks = tr2)
    ∧ dictGet ((sampleTracker.add_task crashedTask "t9" "REINDEX" 1 2 3 4).1).id_task "t1"
        = dictGet sampleTracker.id_task "t1"
    ∧ dictGet ((sampleTracker.add_task crashedTask "t9" "REINDEX" 1 2 3 4).1).id_action "t1"
        = dictGet sampleTracker.id_action "t1"
    ∧ dictGet ((sampleTracker.add_task crashedTask "t9" "REINDEX" 1 2 3 4).1).id_progress "t1"
        = dictGet sampleTracker.id_progress "t1"
    ∧ dictGet ((sampleTracker.add_task crashedTask "t9" "REINDEX" 1 2 3 4).1).id_start_time "t1"
        = dictGet sampleTracker.id_start_time "t1"
    ∧ dictGet ((sampleTracker.add_task crashedTask "t9" "REINDEX" 1 2 3 4).1).id_finish_time "t1"
        = dictGet sampleTracker.id_finish_time "t1"
    ∧ dictGet ((sampleTracker.add_task crashedTask "t9" "REINDEX" 1 2 3 4).1).id_active_workers "t1"
        = dictGet sampleTracker.id_active_workers "t1") :=
  ⟨by decide,
   prune_noop_and_entries_preserved sampleTracker crashedTask "t9" "REINDEX" 1 2 3 4
     "t1" (by decide)⟩

/-- C10: re-submitting an already-present task identifier raises no error:
`add_task` is total, returns the identifier, silently overwrites the previous
entry in all six per-id maps with the new job's values, and leaves every
other identifier's entries unchanged. -/
theorem add_task_overwrites_existing (tr : TaskTracker) (task old : Task)
    (task_id action : String) (progress finish_time active_workers now : Nat)
    (_hpresent : dictGet tr.id_task task_id = some old) :
    (tr.add_task task task_id action progress finish_time active_workers now).2 = task_id
    ∧ dictGet ((tr.add_task task task_id action progress finish_time active_workers now).1).id_task task_id
        = some task
    ∧ dictGet ((tr.add_task task task_id action progress finish_time active_workers now).1).id_action task_id
        = some action
    ∧ dictGet ((tr.add_task task task_id action progress finish_time active_workers now).1).id_progress task_id
        = some progress
    ∧ dictGet ((tr.add_task task task_id action progress finish_time active_workers now).1).id_start_time task_id
        = some now
    ∧ dictGet ((tr.add_task task task_id action progress finish_time active_workers now).1).id_finish_time task_id
        = some finish_time
    ∧ dictGet ((tr.add_task task task_id action progress finish_time active_workers now).1).id_active_workers task_id
        = some active_workers
    ∧ ∀ k2 : String, k2 ≠ task_id →
        dictGet ((tr.add_task task task_id action progress finish_time active_workers now).1).id_task k2
          = dictGet tr.id_task k2
        ∧ dictGet ((tr.add_task task task_id action progress finish_time active_workers now).1).id_action k2
          = dictGet tr.id_action k2
        ∧ dictGet ((tr.add_task task task_id action progress finish_time active_workers now).1).id_progress k2
          = dictGet tr.id_progress k2
        ∧ dictGet ((tr.add_task task task_id action progress finish_time active_workers now).1).id_start_time k2
          = dictGet tr.id_start_time k2
        ∧ dictGet ((tr.add_task task task_id action progress finish_time active_workers now).1).id_finish_time k2
          = dictGet tr.id_finish_time k2
        ∧ dictGet ((tr.add_task task task_id action progress finish_time active_workers now).1).id_active_workers k2
          = dictGet tr.id_active_workers k2 := by
  refine ⟨rfl, dictGet_dictSet_self _ _ _, dictGet_dictSet_self _ _ _,
    dictGet_dictSet_self _ _ _, dictGet_dictSet_self _ _ _,
    dictGet_dictSet_self _ _ _, dictGet_dictSet_self _ _ _, fun k2 hk2 =>
      ⟨dictGet_dictSet_ne _ task_id k2 _ hk2, dictGet_dictSet_ne _ task_id k2 _ hk2,
       dictGet_dictSet_ne _ task_id k2 _ hk2, dictGet_dictSet_ne _ task_id k2 _ hk2,
       dictGet_dictSet_ne _ task_id k2 _ hk2, dictGet_dictSet_ne _ task_id k2 _ hk2⟩⟩

/-- C10 witness: re-submitting `"t4"` over the unstarted job. -/
theorem add_task_overwrites_existing_witness :
    (dictGet unstartedTracker.id_task "t4" = some unstartedTask)
    ∧ ((unstartedTracker.add_task crashedTask "t4" "INGEST_UPSTREAM" 10 7 1 1700000100).2 = "t4"
    ∧ dictGet ((unstartedTracker.add_task crashedTask "t4" "INGEST_UPSTREAM" 10 7 1 1700000100).1).id_task "t4"
        = some crashedTask
    ∧ dictGet ((unstartedTracker.add_task crashedTask "t4" "INGEST_UPSTREAM" 10 7 1 1700000100).1).id_action "t4"
        = some "INGEST_UPSTREAM"
    ∧ dictGet ((unstartedTracker.add_task crashedTask "t4" "INGEST_UPSTREAM" 10 7 1 1700000100).1).id_progress "t4"
        = some 10
    ∧ dictGet ((unstartedTracker.add_task crashedTask "t4" "INGEST_UPSTREAM" 10 7 1 1700000100).1).id_start_time "t4"
        = some 1700000100
    ∧ dictGet ((unstartedTracker.add_task crashedTask "t4" "INGEST_UPSTREAM" 10 7 1 1700000100).1).id_finish_time "t4"
        = some 7
    ∧ dictGet ((unstartedTracker.add_task crashedTask "t4" "INGEST_UPSTREAM" 10 7 1 1700000100).1).id_active_workers "t4"
        = some 1
    ∧ ∀ k2 : String, k2 ≠ "t4" →
        dictGet ((unstartedTracker.add_task crashedTask "t4" "INGEST_UPSTREAM" 10 7 1 1700000100).1).id_task k2
          = dictGet unstartedTracker.id_task k2
        ∧ dictGet ((unstartedTracker.add_task crashedTask "t4" "INGEST_UPSTREAM" 10 7 1 1700000100).1).id_action k2
          = dictGet unstartedTracker.id_action k2
        ∧ dictGet ((unstartedTracker.add_task crashedTask "t4" "INGEST_UPSTREAM" 10 7 1 1700000100).1).id_progress k2
          = dictGet unstartedTracker.id_progress k2
        ∧ dictGet ((unstartedTracker.add_task crashedTask "t4" "INGEST_UPSTREAM" 10 7 1 1700000100).1).id_start_time k2
          = dictGet unstartedTracker.id_start_time k2
        ∧ dictGet ((unstartedTracker.add_task crashedTask "t4" "INGEST_UPSTREAM" 10 7 1 1700000100).1).id_finish_time k2
          = dictGet unstartedTracker.id_finish_time k2
        ∧ dictGet ((unstartedTracker.add_task crashedTask "t4" "INGEST_UPSTREAM" 10 7 1 1700000100).1).id_active_workers k2
          = dictGet unstartedTracker.id_active_workers k2) :=
  ⟨by rfl,
   add_task_overwrites_existing unstartedTracker crashedTask unstartedTask
     "t4" "INGEST_UPSTREAM" 10 7 1 1700000100 (by rfl)⟩

end IngestionServer
